import Mathlib

/-!
Verification development for the "frames" photo-framing tool's layout and
caption-positioning engine.

The TypeScript source is embedded shallowly:

* JS numbers are modelled as rationals (`ℚ`); `Math.round` is `⌊x + 1/2⌋`
  (JS rounds half toward +∞), `Math.min`/`Math.max` are `min`/`max`.
* The string-literal union types `'1:1' | '5:7' | '9:16'` (RatioType) and
  `'S' | 'M' | 'L'` (SpaceType) are embedded as enumerations.
* `Record` lookups that can miss a key (returning `undefined`, handled by
  `?? default` at the use site) are embedded as `Option`-valued tables with
  `Option.getD` at the use site.
* Optional number parameters (`imageWidth?: number`) are `Option ℚ`; the JS
  truthiness test `imageWidth && ...` is "is `some` and nonzero".
* JS division by zero produces `Infinity`/`NaN`, and every `<` comparison
  against those is false; the classifier embeds that case as an explicit
  `height = 0` branch that fails all band tests.
* The 2D canvas context is an external collaborator: text measurement is a
  parameter `measure : String → String → ℚ` (font, text ↦ width), and text
  drawing is embedded as the list of emitted fill-text commands.
-/

namespace Frames

/-- JS `Math.round`: round half toward +∞. -/
def jsRound (x : ℚ) : ℚ := (⌊x + 1/2⌋ : ℤ)

/-- TS union type `RatioType = '1:1' | '5:7' | '9:16'`. -/
inductive RatioType
  | r11
  | r57
  | r916
deriving DecidableEq, Repr

/-- TS union type `SpaceType = 'S' | 'M' | 'L'`. -/
inductive SpaceType
  | sS
  | sM
  | sL
deriving DecidableEq, Repr

open RatioType SpaceType

/-- Boolean test `ratio === '1:1'`. -/
def is11 : RatioType → Bool
  | r11 => true
  | _ => false

/-- Boolean test `ratio === '5:7'`. -/
def is57 : RatioType → Bool
  | r57 => true
  | _ => false

/-- Boolean test `ratio === '9:16'`. -/
def is916 : RatioType → Bool
  | r916 => true
  | _ => false

/-- Boolean test `space === 'S'`. -/
def isS : SpaceType → Bool
  | sS => true
  | _ => false

/-- Boolean test `space === 'M'`. -/
def isM : SpaceType → Bool
  | sM => true
  | _ => false

/-- Boolean test `space === 'L'`. -/
def isL : SpaceType → Bool
  | sL => true
  | _ => false

/-!  ## Aspect-ratio classifier (src/utils/caption.ts)  -/

/-- Source `isSupportedAspectRatio(width, height)`: the upload acceptance
gate, matching `width/height` (the source's local `aspectRatio`, inlined
here) against 3/4, 2/3, 4/5 with tolerance 0.1.  When `height = 0`, JS
computes `Infinity` or `NaN` for the ratio and every band test
`|r - t| < 0.1` is false; that case is the explicit first branch. -/
def isSupportedAspectRatio (width height : ℚ) : Bool :=
  if height = 0 then false
  else
    decide (|width / height - 3/4| < 0.1) ||
      decide (|width / height - 2/3| < 0.1) ||
      decide (|width / height - 4/5| < 0.1)

/-- Result type of `getImageAspectRatioType`: `'3:4' | '2:3' | '4:5' | 'other'`. -/
inductive AspectType
  | a34
  | a23
  | a45
  | other
deriving DecidableEq, Repr

/-- Source `getImageAspectRatioType(width, height)`: the styling classifier
with tolerance 0.05, checked in the priority order 3:4, 2:3, 4:5.
As above, `height = 0` makes every band test false, yielding `'other'`. -/
def getImageAspectRatioType (width height : ℚ) : AspectType :=
  if height = 0 then AspectType.other
  else
    if |width / height - 3/4| < 0.05 then AspectType.a34
    else if |width / height - 2/3| < 0.05 then AspectType.a23
    else if |width / height - 4/5| < 0.05 then AspectType.a45
    else AspectType.other

/-!  ## Padding calculator (frames tool component, `getFramePadding`)  -/

/-- Source `minPadBottomTable` (Ratio → Spaces → fraction): every entry is
0.17 except (5:7, S) which is 0.1. -/
def minPadBottomTable : RatioType → SpaceType → ℚ
  | r11, _ => 0.17
  | r57, sS => 0.1
  | r57, _ => 0.17
  | r916, _ => 0.17

/-- The record returned by `getFramePadding`. -/
structure FramePadding where
  padTop : ℚ
  padLeft : ℚ
  padRight : ℚ
  padBottom : ℚ
deriving Repr, DecidableEq

/-- Source `getFramePadding(width, height, ratio, space)`: the ternary
chain `space === 'S' ? 0.04 : space === 'M' ? 0.08 : 0.15`, the table
lookup with default 0.17, the rounded paddings, and the trailing mutation
`if (ratio === '9:16') { padTop *= 2.5; if (space === 'S') padTop *= 1.8 }`. -/
def getFramePadding (width height : ℚ) (rt : RatioType) (sp : SpaceType) : FramePadding :=
  let basePadding : ℚ := if isS sp then 0.04 else if isM sp then 0.08 else 0.15
  let minPadBottom : ℚ := minPadBottomTable rt sp
  let extraBottom : ℚ := max 0 (minPadBottom - basePadding)
  let shortSide : ℚ := min width height
  let padTop0 : ℚ := jsRound (shortSide * basePadding)
  let padLeft : ℚ := jsRound (shortSide * basePadding)
  let padRight : ℚ := jsRound (shortSide * basePadding)
  let padBottom : ℚ := jsRound (shortSide * (basePadding + extraBottom))
  let padTop : ℚ :=
    if is916 rt then (if isS sp then padTop0 * 2.5 * 1.8 else padTop0 * 2.5) else padTop0
  ⟨padTop, padLeft, padRight, padBottom⟩

/-!  ## Caption offset tables (src/utils/caption.ts, ratio-based generation)

The source names these `CAPTION_Y_OFFSET_RATIO*`; here the suffix `RATIO`
is rendered `FRAC` (the values are fractions of the canvas height).
Missing keys (`'9:16'` rows, `L` columns) are `none`, matching the
`TABLE[ratio]?.[space] ?? 0` lookups in the source. -/

/-- Source `CAPTION_Y_OFFSET_RATIO`: base table (Spaces S/M). -/
def CAPTION_Y_OFFSET_FRAC : RatioType → SpaceType → Option ℚ
  | r11, sS => some 0
  | r11, sM => some 0
  | r57, sS => some (-0.012)
  | r57, sM => some (-0.012)
  | _, _ => none

/-- Source `CAPTION_Y_OFFSET_RATIO_57IMG`: table used when the uploaded
image is 5:7-like (Spaces S/M). -/
def CAPTION_Y_OFFSET_FRAC_57IMG : RatioType → SpaceType → Option ℚ
  | r11, sS => some 0
  | r11, sM => some (-0.003)
  | r57, sS => some 0
  | r57, sM => some (-0.0015)
  | _, _ => none

/-- Source `CAPTION_Y_OFFSET_RATIO_23IMG`: table used when the uploaded
image is 2:3-like (Spaces S/M). -/
def CAPTION_Y_OFFSET_FRAC_23IMG : RatioType → SpaceType → Option ℚ
  | r11, sS => some 0
  | r11, sM => some 0
  | r57, sS => some 0
  | r57, sM => some (-0.003)
  | _, _ => none

/-- Source `CAPTION_Y_OFFSET_RATIO_45IMG`: table used when the uploaded
image is 4:5-like (Spaces S/M). -/
def CAPTION_Y_OFFSET_FRAC_45IMG : RatioType → SpaceType → Option ℚ
  | r11, sS => some 0
  | r11, sM => some 0
  | r57, sS => some (-0.045)
  | r57, sM => some (-0.037)
  | _, _ => none

/-- Source `CAPTION_DISTANCE_FROM_IMAGE_BOTTOM_L`: fixed distance below the
image bottom, as a fraction of canvas height; 0.02 for every ratio. -/
def CAPTION_DISTANCE_FROM_IMAGE_BOTTOM_L : RatioType → Option ℚ
  | r11 => some 0.02
  | r57 => some 0.02
  | r916 => some 0.02

/-- JS truthiness of an optional number: defined and nonzero. -/
def truthy : Option ℚ → Bool
  | none => false
  | some x => decide (x ≠ 0)

/-- Source `getCaptionYOffset({ratio, space, imageWidth, imageHeight, canvasH})`
from the ratio-based generation.  Branch order as in the source: Spaces L
short-circuit; 5:7-image table (tolerance 0.01); 2:3-image table (0.05);
4:5-image table (0.05); base table plus the small-screen corrections for
(1:1, S, canvasH < 480) and (5:7, S, canvasH < 672). -/
def getCaptionYOffset (rt : RatioType) (sp : SpaceType)
    (imageWidth imageHeight canvasH : Option ℚ) : ℚ :=
  if isL sp then (CAPTION_DISTANCE_FROM_IMAGE_BOTTOM_L rt).getD 0
  else if truthy imageWidth ∧ truthy imageHeight ∧
      |imageWidth.getD 0 / imageHeight.getD 0 - 5/7| < 0.01 then
    (CAPTION_Y_OFFSET_FRAC_57IMG rt sp).getD 0
  else if truthy imageWidth ∧ truthy imageHeight ∧
      |imageWidth.getD 0 / imageHeight.getD 0 - 2/3| < 0.05 then
    (CAPTION_Y_OFFSET_FRAC_23IMG rt sp).getD 0
  else if truthy imageWidth ∧ truthy imageHeight ∧
      |imageWidth.getD 0 / imageHeight.getD 0 - 4/5| < 0.05 then
    (CAPTION_Y_OFFSET_FRAC_45IMG rt sp).getD 0
  else
    let base := (CAPTION_Y_OFFSET_FRAC rt sp).getD 0
    let base := if is11 rt ∧ isS sp ∧ truthy canvasH ∧ canvasH.getD 0 < 480 then
      base - 0.021 else base
    let base := if is57 rt ∧ isS sp ∧ truthy canvasH ∧ canvasH.getD 0 < 672 then
      base - 0.012 else base
    base

/-- Source `getCaptionYPosition({...})` from the ratio-based generation:
9:16 frames and Spaces L anchor the caption a fixed fraction of the canvas
height below the image bottom; Spaces S/M center it in the bottom padding
shifted by `getCaptionYOffset` (called with `canvasH := canvasHeight`). -/
def getCaptionYPosition (rt : RatioType) (sp : SpaceType)
    (canvasHeight padBottom imageDrawTop imageDrawHeight captionHeight : ℚ)
    (imageWidth imageHeight : Option ℚ) : ℚ :=
  if is916 rt then
    let imageBottom := imageDrawTop + imageDrawHeight
    let distanceFromBottom := (CAPTION_DISTANCE_FROM_IMAGE_BOTTOM_L r916).getD 0.02 * canvasHeight
    imageBottom + distanceFromBottom
  else if isL sp then
    let imageBottom := imageDrawTop + imageDrawHeight
    let distanceFromBottom := (CAPTION_DISTANCE_FROM_IMAGE_BOTTOM_L rt).getD 0.02 * canvasHeight
    imageBottom + distanceFromBottom
  else
    let yOffsetFrac := getCaptionYOffset rt sp imageWidth imageHeight (some canvasHeight)
    let yOffsetPx := yOffsetFrac * canvasHeight
    canvasHeight - padBottom / 2 - captionHeight / 2 + yOffsetPx

/-!  ## Compositor geometry (frames tool component)  -/

/-- Export long-side constant `OUTPUT_LONG_SIDE`. -/
def OUTPUT_LONG_SIDE : ℚ := 2400

/-- `CAPTION_STYLE.font1`. -/
def CAPTION_STYLE_font1 : ℚ := 0.023

/-- `CAPTION_STYLE.font2`. -/
def CAPTION_STYLE_font2 : ℚ := 0.019

/-- `CAPTION_STYLE.lineGap`. -/
def CAPTION_STYLE_lineGap : ℚ := 0.007

/-- `drawCaption`'s `outputShortSide`:
`min(OUTPUT_LONG_SIDE, OUTPUT_LONG_SIDE * (ratio === '1:1' ? 1 : ratio === '5:7' ? 5/7 : 9/16))`. -/
def outputShortSide (rt : RatioType) : ℚ :=
  min OUTPUT_LONG_SIDE
    (OUTPUT_LONG_SIDE * (if is11 rt then 1 else if is57 rt then 5/7 else 9/16))

/-- `drawCaption`'s caption block height `totalHeight = baseFontPx1 +
baseFontPx2 + lineGap`, where each term is rounded from the output short
side scaled by `scale = min(width, height) / outputShortSide`. -/
def captionTotalHeight (width height : ℚ) (rt : RatioType) : ℚ :=
  let oss := outputShortSide rt
  let scale := min width height / oss
  jsRound (oss * CAPTION_STYLE_font1 * scale) +
    jsRound (oss * CAPTION_STYLE_font2 * scale) +
    jsRound (oss * CAPTION_STYLE_lineGap * scale)

/-- The caption anchor `yStart` as `drawCaption` computes it from a canvas
of size `width × height` and the already-computed image geometry. -/
def captionAnchorY (width height padBottom imageDrawTop imageDrawHeight : ℚ)
    (sp : SpaceType) (rt : RatioType) (imageWidth imageHeight : Option ℚ) : ℚ :=
  getCaptionYPosition rt sp height padBottom imageDrawTop imageDrawHeight
    (captionTotalHeight width height rt) imageWidth imageHeight

/-- The image-placement rectangle (`left`, `top`, `targetW`, `targetH`). -/
structure ImageRect where
  left : ℚ
  top : ℚ
  width : ℚ
  height : ℚ
deriving Repr, DecidableEq

/-- Image placement from the preview path (`drawCanvas`): contain-fit into
the padded interior, horizontally centered; special cases: when ratio is
9:16 and Spaces is L the vertical padding is zeroed and the fit/centering
uses the full canvas height; vertical centering applies for 9:16 (always)
and for 5:7 + L with a 3:4-like or 4:5-like image (tolerance 0.05),
otherwise the image is top-aligned at `padTop`. -/
def previewImagePlacement (canvasW canvasH : ℚ) (rt : RatioType) (sp : SpaceType)
    (imgW imgH : ℚ) : ImageRect :=
  let pad := getFramePadding canvasW canvasH rt sp
  let drawW := canvasW - pad.padLeft - pad.padRight
  let drawH := canvasH - pad.padTop - pad.padBottom
  let padTopForDraw := if is916 rt ∧ isL sp then 0 else pad.padTop
  let drawHForDraw := if is916 rt ∧ isL sp then canvasH else drawH
  let imgAspect := imgW / imgH
  let frameAspect := drawW / drawHForDraw
  let targetW := if imgAspect > frameAspect then drawW else drawHForDraw * imgAspect
  let targetH := if imgAspect > frameAspect then drawW / imgAspect else drawHForDraw
  let left := pad.padLeft + (drawW - targetW) / 2
  let is34Image := |imgW / imgH - 3/4| < 0.05
  let is45Image := |imgW / imgH - 4/5| < 0.05
  let top := if is916 rt ∨ (is34Image ∧ is57 rt ∧ isL sp) ∨ (is45Image ∧ is57 rt ∧ isL sp) then
      padTopForDraw + (drawHForDraw - targetH) / 2
    else padTopForDraw
  ⟨left, top, targetW, targetH⟩

/-- Image placement from the export (Print) path: identical to the preview
computation except that it has no 9:16 + L zero-padding override. -/
def exportImagePlacement (canvasW canvasH : ℚ) (rt : RatioType) (sp : SpaceType)
    (imgW imgH : ℚ) : ImageRect :=
  let pad := getFramePadding canvasW canvasH rt sp
  let drawW := canvasW - pad.padLeft - pad.padRight
  let drawH := canvasH - pad.padTop - pad.padBottom
  let imgAspect := imgW / imgH
  let frameAspect := drawW / drawH
  let targetW := if imgAspect > frameAspect then drawW else drawH * imgAspect
  let targetH := if imgAspect > frameAspect then drawW / imgAspect else drawH
  let left := pad.padLeft + (drawW - targetW) / 2
  let is34Image := |imgW / imgH - 3/4| < 0.05
  let is45Image := |imgW / imgH - 4/5| < 0.05
  let top := if is916 rt ∨ (is34Image ∧ is57 rt ∧ isL sp) ∨ (is45Image ∧ is57 rt ∧ isL sp) then
      pad.padTop + (drawH - targetH) / 2
    else pad.padTop
  ⟨left, top, targetW, targetH⟩

/-- PC preview canvas size per ratio (`baseW = 480`, `baseH = round(480*7/5)`;
1:1 → 480×480, 9:16 → round(baseH*9/16)×baseH, 5:7 → 480×baseH). -/
def previewCanvasSize (rt : RatioType) : ℚ × ℚ :=
  let baseW : ℚ := 480
  let baseH : ℚ := jsRound (baseW * 7 / 5)
  if is11 rt then (baseW, baseW)
  else if is916 rt then (jsRound (baseH * 9 / 16), baseH)
  else (baseW, baseH)

/-- The `ratioMap` entries `[rw, rh]` used by the Print handler. -/
def ratioPair : RatioType → ℚ × ℚ
  | r11 => (1, 1)
  | r57 => (5, 7)
  | r916 => (9, 16)

/-- Export canvas size per ratio from the Print handler:
`outputW = rw >= rh ? 2400 : round(2400*rw/rh)`,
`outputH = rh > rw ? 2400 : round(2400*rh/rw)`. -/
def exportCanvasSize (rt : RatioType) : ℚ × ℚ :=
  let rw := (ratioPair rt).1
  let rh := (ratioPair rt).2
  (if rw ≥ rh then OUTPUT_LONG_SIDE else jsRound (OUTPUT_LONG_SIDE * rw / rh),
   if rh > rw then OUTPUT_LONG_SIDE else jsRound (OUTPUT_LONG_SIDE * rh / rw))

/-- The full per-render geometry: padding, image rectangle, caption anchor. -/
structure RenderGeometry where
  padding : FramePadding
  rect : ImageRect
  captionY : ℚ
deriving Repr, DecidableEq

/-- Geometry produced by the preview render (`drawCanvas`) at the PC
preview canvas size. -/
def previewRenderGeometry (rt : RatioType) (sp : SpaceType) (imgW imgH : ℚ) : RenderGeometry :=
  let wh := previewCanvasSize rt
  let pad := getFramePadding wh.1 wh.2 rt sp
  let rect := previewImagePlacement wh.1 wh.2 rt sp imgW imgH
  ⟨pad, rect, captionAnchorY wh.1 wh.2 pad.padBottom rect.top rect.height sp rt (some imgW) (some imgH)⟩

/-- Geometry produced by the export (Print) render on a desktop device
(where `drawCaption` receives the export canvas height). -/
def exportRenderGeometry (rt : RatioType) (sp : SpaceType) (imgW imgH : ℚ) : RenderGeometry :=
  let wh := exportCanvasSize rt
  let pad := getFramePadding wh.1 wh.2 rt sp
  let rect := exportImagePlacement wh.1 wh.2 rt sp imgW imgH
  ⟨pad, rect, captionAnchorY wh.1 wh.2 pad.padBottom rect.top rect.height sp rt (some imgW) (some imgH)⟩

/-- The dimensionless profile of a render geometry: every length divided by
the corresponding canvas dimension. -/
def geometryFracs (g : RenderGeometry) (w h : ℚ) : List ℚ :=
  [g.padding.padTop / h, g.padding.padLeft / w, g.padding.padRight / w,
   g.padding.padBottom / h, g.rect.left / w, g.rect.top / h,
   g.rect.width / w, g.rect.height / h, g.captionY / h]

/-- Representative source-image pixel dimensions, one per accepted aspect
class: 3:4, 2:3, 4:5, and an exactly-5:7 image (which the acceptance check
admits into the 3:4 class). -/
def sampleClassDims : List (ℚ × ℚ) :=
  [(3000, 4000), (2000, 3000), (4000, 5000), (1000, 1400)]

/-- Preview and export geometry at (rt, sp, image dims) agree after
normalizing by the canvas dimensions, within `tol`. -/
def scaleInvariantAt (rt : RatioType) (sp : SpaceType) (d : ℚ × ℚ) (tol : ℚ) : Prop :=
  List.Forall₂ (fun a b => |a - b| ≤ tol)
    (geometryFracs (previewRenderGeometry rt sp d.1 d.2)
      (previewCanvasSize rt).1 (previewCanvasSize rt).2)
    (geometryFracs (exportRenderGeometry rt sp d.1 d.2)
      (exportCanvasSize rt).1 (exportCanvasSize rt).2)

/-!  ## Caption text rendering (`drawCaption`, `getContrastColor`)  -/

/-- Hex digit value of a character (for JS `parseInt(s, 16)`). -/
def hexDigitVal (c : Char) : Option ℕ :=
  if c.isDigit then some (c.toNat - 48)
  else if c ≥ 'a' ∧ c ≤ 'f' then some (c.toNat - 87)
  else if c ≥ 'A' ∧ c ≤ 'F' then some (c.toNat - 55)
  else none

/-- Accumulate the longest hex-digit prefix. -/
def parseHexDigits (acc : ℕ) : List Char → ℕ
  | [] => acc
  | c :: cs =>
    match hexDigitVal c with
    | some d => parseHexDigits (acc * 16 + d) cs
    | none => acc

/-- JS `parseInt(s, 16)`: value of the longest hex-digit prefix, `none`
standing for `NaN` (no leading hex digit). -/
def parseIntHex (cs : List Char) : Option ℕ :=
  match cs with
  | [] => none
  | c :: cs =>
    match hexDigitVal c with
    | some d => some (parseHexDigits d cs)
    | none => none

/-- Decimal value of a digit character. -/
def digitVal (c : Char) : ℕ := c.toNat - 48

/-- Worker for `digitRuns`: the optional accumulator is the run in progress. -/
def digitRunsAux : List Char → Option ℕ → List ℕ
  | [], none => []
  | [], some n => [n]
  | c :: cs, none =>
    if c.isDigit then digitRunsAux cs (some (digitVal c)) else digitRunsAux cs none
  | c :: cs, some n =>
    if c.isDigit then digitRunsAux cs (some (n * 10 + digitVal c))
    else n :: digitRunsAux cs none

/-- JS `s.match(/\d+/g)` followed by decimal `parseInt` on each run. -/
def digitRuns (cs : List Char) : List ℕ := digitRunsAux cs none

/-- JS `String.prototype.startsWith`, on character lists (second argument
is the pattern). -/
def charsStartWith : List Char → List Char → Bool
  | _, [] => true
  | [], _ :: _ => false
  | c :: cs, p :: ps => c = p && charsStartWith cs ps

/-- Source `getContrastColor(color)`: named special cases, then the
emerald special case, then YIQ luminance (≥ 128 → dark text) computed from
a `#RRGGBB` hex literal or from the first three digit runs of an
`rgb(...)`/`rgba(...)` string, with fallback `'#222'`.  An unparsable hex
pair gives a `NaN` luminance in JS, for which `>= 128` is false, hence
`'#fff'`; that is the `none` match arm of the hex branch.  `toLowerCase`,
`startsWith` and `length` are taken over the string's character list so
that the definition evaluates by structural recursion. -/
def getContrastColor (color : String) : String :=
  if color = "#fff" ∨ color = "#ffffff" then "#222"
  else if color = "#111" ∨ color = "#000" ∨ color = "#000000" then "#fff"
  else if color.toList.map Char.toLower = "#008080".toList then "#222"
  else if charsStartWith color.toList "#".toList ∧ color.toList.length = 7 then
    match parseIntHex ((color.toList.drop 1).take 2),
        parseIntHex ((color.toList.drop 3).take 2),
        parseIntHex ((color.toList.drop 5).take 2) with
    | some r, some g, some b =>
      if ((r * 299 + g * 587 + b * 114 : ℕ) : ℚ) / 1000 ≥ 128 then "#222" else "#fff"
    | _, _, _ => "#fff"
  else if charsStartWith color.toList "rgb".toList then
    match digitRuns color.toList with
    | r :: g :: b :: _ =>
      if ((r * 299 + g * 587 + b * 114 : ℕ) : ℚ) / 1000 ≥ 128 then "#222" else "#fff"
    | _ => "#222"
  else "#222"

/-- `SNAP_COLORS.pattern1` (the base Snap accent color). -/
def SNAP_COLORS_pattern1 : String := "#00AD50"

/-- `SNAP_COLORS.pattern2` (the alternate, orange Snap accent color). -/
def SNAP_COLORS_pattern2 : String := "#FF9900"

/-- One `ctx.fillText` invocation together with the context state
(font, fill color, global alpha) in force when it is issued. -/
structure TextCmd where
  text : String
  x : ℚ
  y : ℚ
  font : String
  color : String
  alpha : ℚ
deriving Repr, DecidableEq

/-- Source `drawTextWithLetterSpacing(ctx, text, x, y, letterSpacing)`:
draw each character separately, advancing by its measured width plus the
letter spacing.  `measure font text` abstracts `ctx.measureText` under the
given font. -/
def drawTextWithLetterSpacing (measure : String → String → ℚ)
    (font color : String) (alpha : ℚ) :
    List Char → ℚ → ℚ → ℚ → List TextCmd
  | [], _, _, _ => []
  | c :: cs, x, y, ls =>
    ⟨String.singleton c, x, y, font, color, alpha⟩ ::
      drawTextWithLetterSpacing measure font color alpha cs
        (x + measure font (String.singleton c) + ls) y ls

/-- JS `s.replace(pat, '')` for a plain-string pattern: remove the first
occurrence only. -/
def replaceFirst (s pat : String) : String :=
  match s.splitOn pat with
  | [] => s
  | [a] => a
  | a :: rest => a ++ String.intercalate pat rest

/-- Font string for the regular weight of the first caption line (the
source uses CSS quotes around the family name; they are dropped here). -/
def font1Str (px : ℚ) : String := "400 " ++ toString px ++ "px KT Flux 100, Arial"

/-- Font string for the medium weight of the camera name. -/
def font1MedStr (px : ℚ) : String := "500 " ++ toString px ++ "px KT Flux 100, Arial"

/-- Font string for the second caption line. -/
def font2Str (px : ℚ) : String := "400 " ++ toString px ++ "px KT Flux 200, Arial"

/-- Source `drawCaption(...)` as the list of fill-text commands it issues:
computes scaled font sizes, the caption anchor `yStart`, the line colors
(Snap pattern 2 → fixed red for both lines; Snap pattern 1 → white/dark;
otherwise the YIQ contrast color for both), then draws the first line as
a "Shot on " prefix plus camera name and the second line at alpha 0.7
(1.0 under a Snap accent color). -/
def drawCaption (measure : String → String → ℚ)
    (width height padBottom imageDrawTop imageDrawHeight : ℚ)
    (captionLines : String × String) (frameColor : String)
    (sp : SpaceType) (rt : RatioType)
    (imageWidth imageHeight : Option ℚ) : List TextCmd :=
  let oss := outputShortSide rt
  let scale := min width height / oss
  let baseFontPx1 := jsRound (oss * CAPTION_STYLE_font1 * scale)
  let baseFontPx2 := jsRound (oss * CAPTION_STYLE_font2 * scale)
  let lineGap := jsRound (oss * CAPTION_STYLE_lineGap * scale)
  let totalHeight := baseFontPx1 + baseFontPx2 + lineGap
  let yStart := getCaptionYPosition rt sp height padBottom imageDrawTop imageDrawHeight
    totalHeight imageWidth imageHeight
  let isSnapColor := frameColor = SNAP_COLORS_pattern1 ∨ frameColor = SNAP_COLORS_pattern2
  let isSnapPattern2 := frameColor = SNAP_COLORS_pattern2
  let firstLineColor := if isSnapPattern2 then "#E2211C"
    else if isSnapColor then "#fff" else getContrastColor frameColor
  let secondLineColor := if isSnapPattern2 then "#E2211C"
    else if isSnapColor then "#222" else getContrastColor frameColor
  let letterSpacing1 : ℚ := 0.4
  let letterSpacing2 : ℚ := 0.4
  let line1Cmds :=
    if captionLines.1 ≠ "" then
      let shotOn := "Shot on "
      let cameraName := replaceFirst captionLines.1 shotOn
      let shotOnWidth := measure (font1Str baseFontPx1) shotOn +
        ((shotOn.length : ℚ) - 1) * letterSpacing1
      let cameraWidth := measure (font1MedStr baseFontPx1) cameraName +
        ((cameraName.length : ℚ) - 1) * letterSpacing1
      let totalWidth := shotOnWidth + cameraWidth
      let xStart := width / 2 - totalWidth / 2
      drawTextWithLetterSpacing measure (font1Str baseFontPx1) firstLineColor 1
          shotOn.toList xStart yStart letterSpacing1 ++
        drawTextWithLetterSpacing measure (font1MedStr baseFontPx1) firstLineColor 1
          cameraName.toList (xStart + shotOnWidth) yStart letterSpacing1
    else []
  let line2Cmds :=
    if captionLines.2 ≠ "" then
      let line2Width := measure (font2Str baseFontPx2) captionLines.2 +
        ((captionLines.2.length : ℚ) - 1) * letterSpacing2
      let x2 := width / 2 - line2Width / 2
      drawTextWithLetterSpacing measure (font2Str baseFontPx2) secondLineColor
        (if isSnapColor then 1 else 0.7) captionLines.2.toList x2
        (yStart + baseFontPx1 + lineGap) letterSpacing2
    else []
  line1Cmds ++ line2Cmds

/-!  ## Upload handling (`handleFilesUpload` / `img.onload`)  -/

/-- Source `ExifData` interface (src/utils/caption.ts). -/
structure ExifData where
  Make : Option String := none
  Model : Option String := none
  ISO : Option ℚ := none
  FNumber : Option ℚ := none
  ExposureTime : Option ℚ := none
  Software : Option String := none
deriving Repr, DecidableEq

/-- The component state touched by the upload flow (`FramesTool` React
state).  The loaded image is represented by its pixel dimensions. -/
structure AppState where
  image : Option (ℚ × ℚ)
  autoColor : String
  color : String
  snapPattern : ℕ
  retrobluePattern : ℕ
  autoPattern : ℕ
  exifData : Option ExifData
  captionLines : String × String
  isFilmScannerImage : Bool
  manualCamera : String
  manualPlace : String
  showErrorPopup : Bool
deriving Repr, DecidableEq

/-- The component's initial state (the `useState` initializers). -/
def initialState : AppState where
  image := none
  autoColor := "#e53e3e"
  color := ""
  snapPattern := 1
  retrobluePattern := 1
  autoPattern := 1
  exifData := none
  captionLines := ("", "")
  isFilmScannerImage := false
  manualCamera := ""
  manualPlace := ""
  showErrorPopup := false

/-- Source `handleFilesUpload`'s `img.onload` callback: rejects the image
when `isSupportedAspectRatio` fails (only `showErrorPopup` is set, then
`return`); otherwise stores the image, the sampled dominant color
(`dominantColor`, computed by the external pixel-sampling collaborator),
resets `autoPattern` to 1, defaults an unset frame color to white, stores
EXIF, and sets the caption lines — cleared together with the manual-entry
fields when the film-scanner heuristic (`filmScan`, external data) fires,
otherwise the lines built by the external caption text builder
(`exifLines`). -/
def handleImageLoad (s : AppState) (imgW imgH : ℚ) (dominantColor : String)
    (exif : ExifData) (filmScan : Bool) (exifLines : String × String) : AppState :=
  if isSupportedAspectRatio imgW imgH then
    { s with
      image := some (imgW, imgH)
      autoColor := dominantColor
      autoPattern := 1
      color := if s.color = "" then "white" else s.color
      exifData := some exif
      isFilmScannerImage := filmScan
      manualCamera := if filmScan then "" else s.manualCamera
      manualPlace := if filmScan then "" else s.manualPlace
      captionLines := if filmScan then ("", "") else exifLines }
  else
    { s with showErrorPopup := true }

/-- A sample EXIF record (all fields absent). -/
def sampleExif : ExifData := {}

/-!  ## Claim-side formulations

These definitions follow the wording of the specification claims (not the
source); the theorems below compare them against the source embedding. -/

/-- Claim C2's base padding table: S→0.04, M→0.08, L→0.15. -/
def basePaddingPerClaim : SpaceType → ℚ
  | sS => 0.04
  | sM => 0.08
  | sL => 0.15

/-- Claim C2's `minPadBottom` description: 0.10 for (5:7, S), 0.17
for every other combination. -/
def minPadBottomPerClaim : RatioType → SpaceType → ℚ
  | r57, sS => 0.1
  | _, _ => 0.17

/-- Claim C2's 9:16 top-padding multiplier: 2.5 for 9:16, a further 1.8
(net 4.5) when the tier is S, and 1 otherwise. -/
def padTopMultiplierPerClaim : RatioType → SpaceType → ℚ
  | r916, sS => 2.5 * 1.8
  | r916, _ => 2.5
  | _, _ => 1

/-- The full padding record exactly as claim C2 words the algorithm. -/
def paddingPerClaim (w h : ℚ) (rt : RatioType) (sp : SpaceType) : FramePadding :=
  let base := basePaddingPerClaim sp
  let shortSide := min w h
  ⟨(match rt, sp with
    | r916, sS => jsRound (shortSide * base) * 2.5 * 1.8
    | r916, _ => jsRound (shortSide * base) * 2.5
    | _, _ => jsRound (shortSide * base)),
   jsRound (shortSide * base), jsRound (shortSide * base),
   jsRound (shortSide * (base + max 0 (minPadBottomPerClaim rt sp - base)))⟩

/-- The caption offset exactly as claim C4 words it: a priority-ordered
table lookup (5:7-image table at tolerance 0.01, then 2:3 and 4:5 tables
at tolerance 0.05, then the base table), after which "a small-screen
correction subtracts a further fixed constant from the offset" whenever
(1:1, S, canvasH < 480) or (5:7, S, canvasH < 672) — unconditionally on
which table was selected. -/
def captionOffsetPerClaimC4 (rt : RatioType) (sp : SpaceType)
    (imgW imgH canvasH : ℚ) : ℚ :=
  let offset :=
    if |imgW / imgH - 5/7| < 0.01 then (CAPTION_Y_OFFSET_FRAC_57IMG rt sp).getD 0
    else if |imgW / imgH - 2/3| < 0.05 then (CAPTION_Y_OFFSET_FRAC_23IMG rt sp).getD 0
    else if |imgW / imgH - 4/5| < 0.05 then (CAPTION_Y_OFFSET_FRAC_45IMG rt sp).getD 0
    else (CAPTION_Y_OFFSET_FRAC rt sp).getD 0
  let offset := if is11 rt ∧ isS sp ∧ canvasH < 480 then offset - 0.021 else offset
  let offset := if is57 rt ∧ isS sp ∧ canvasH < 672 then offset - 0.012 else offset
  offset

/-- Claim C4 as amended: the same priority-ordered lookup, but the
small-screen correction applies only when the lookup fell through to the
base table. -/
def captionOffsetPerClaimC4Amended (rt : RatioType) (sp : SpaceType)
    (imgW imgH canvasH : ℚ) : ℚ :=
  if |imgW / imgH - 5/7| < 0.01 then (CAPTION_Y_OFFSET_FRAC_57IMG rt sp).getD 0
  else if |imgW / imgH - 2/3| < 0.05 then (CAPTION_Y_OFFSET_FRAC_23IMG rt sp).getD 0
  else if |imgW / imgH - 4/5| < 0.05 then (CAPTION_Y_OFFSET_FRAC_45IMG rt sp).getD 0
  else
    (CAPTION_Y_OFFSET_FRAC rt sp).getD 0
      - (if is11 rt ∧ isS sp ∧ canvasH < 480 then 0.021 else 0)
      - (if is57 rt ∧ isS sp ∧ canvasH < 672 then 0.012 else 0)

/-- The padding postcondition of claim C6, amended: symmetric and
non-negative always, but the top padding is only guaranteed integral when
the frame ratio is not 9:16 (the 2.5× / 1.8× multipliers are applied after
rounding and can produce half-integers). -/
def paddingPostconditionAmended (w h : ℚ) (rt : RatioType) (sp : SpaceType) : Prop :=
  (getFramePadding w h rt sp).padLeft = (getFramePadding w h rt sp).padRight ∧
    0 ≤ (getFramePadding w h rt sp).padTop ∧
    0 ≤ (getFramePadding w h rt sp).padLeft ∧
    0 ≤ (getFramePadding w h rt sp).padRight ∧
    0 ≤ (getFramePadding w h rt sp).padBottom ∧
    (∃ n : ℤ, (getFramePadding w h rt sp).padLeft = (n : ℚ)) ∧
    (∃ n : ℤ, (getFramePadding w h rt sp).padRight = (n : ℚ)) ∧
    (∃ n : ℤ, (getFramePadding w h rt sp).padBottom = (n : ℚ)) ∧
    (rt ≠ r916 → ∃ n : ℤ, (getFramePadding w h rt sp).padTop = (n : ℚ))

/-- The image-placement invariant of claim C5, for the export-path
placement: the rectangle lies in the padded interior, is non-degenerate,
preserves the source aspect ratio, is horizontally centered, and is
vertically centered in the padded interior exactly for 9:16 frames or for
5:7 + L with a 3:4- or 4:5-classified image, else top-aligned at the top
padding. -/
def imagePlacementInvariant (w h : ℚ) (rt : RatioType) (sp : SpaceType)
    (imgW imgH : ℚ) : Prop :=
  (getFramePadding w h rt sp).padLeft ≤ (exportImagePlacement w h rt sp imgW imgH).left ∧
    (exportImagePlacement w h rt sp imgW imgH).left +
        (exportImagePlacement w h rt sp imgW imgH).width ≤
      w - (getFramePadding w h rt sp).padRight ∧
    (getFramePadding w h rt sp).padTop ≤ (exportImagePlacement w h rt sp imgW imgH).top ∧
    (exportImagePlacement w h rt sp imgW imgH).top +
        (exportImagePlacement w h rt sp imgW imgH).height ≤
      h - (getFramePadding w h rt sp).padBottom ∧
    0 < (exportImagePlacement w h rt sp imgW imgH).width ∧
    0 < (exportImagePlacement w h rt sp imgW imgH).height ∧
    (exportImagePlacement w h rt sp imgW imgH).width /
        (exportImagePlacement w h rt sp imgW imgH).height = imgW / imgH ∧
    (exportImagePlacement w h rt sp imgW imgH).left - (getFramePadding w h rt sp).padLeft =
      (w - (getFramePadding w h rt sp).padRight) -
        ((exportImagePlacement w h rt sp imgW imgH).left +
          (exportImagePlacement w h rt sp imgW imgH).width) ∧
    (exportImagePlacement w h rt sp imgW imgH).top =
      (if is916 rt ∨ ((getImageAspectRatioType imgW imgH = AspectType.a34 ∨
            getImageAspectRatioType imgW imgH = AspectType.a45) ∧ is57 rt ∧ isL sp) then
        (getFramePadding w h rt sp).padTop +
          ((h - (getFramePadding w h rt sp).padTop -
            (getFramePadding w h rt sp).padBottom) -
            (exportImagePlacement w h rt sp imgW imgH).height) / 2
      else (getFramePadding w h rt sp).padTop)

end Frames

/-!  ## Theorems  -/

namespace Frames

open RatioType SpaceType

/-- `Math.round` of a non-negative number is non-negative. -/
theorem jsRound_nonneg {x : ℚ} (hx : 0 ≤ x) : 0 ≤ jsRound x := by
  unfold jsRound
  have h : (0 : ℤ) ≤ ⌊x + 1/2⌋ := Int.floor_nonneg.mpr (by linarith)
  exact_mod_cast h

/-- `Math.round` always yields an integer. -/
theorem jsRound_int (x : ℚ) : ∃ n : ℤ, jsRound x = (n : ℚ) := ⟨⌊x + 1/2⌋, rfl⟩

/-- Shape of the left padding. -/
theorem padLeft_eq (w h : ℚ) (rt : RatioType) (sp : SpaceType) :
    (getFramePadding w h rt sp).padLeft = jsRound (min w h * basePaddingPerClaim sp) := by
  rcases sp <;> rfl

/-- Shape of the right padding. -/
theorem padRight_eq (w h : ℚ) (rt : RatioType) (sp : SpaceType) :
    (getFramePadding w h rt sp).padRight = jsRound (min w h * basePaddingPerClaim sp) := by
  rcases sp <;> rfl

/-- Shape of the bottom padding. -/
theorem padBottom_eq (w h : ℚ) (rt : RatioType) (sp : SpaceType) :
    (getFramePadding w h rt sp).padBottom =
      jsRound (min w h * (basePaddingPerClaim sp +
        max 0 (minPadBottomPerClaim rt sp - basePaddingPerClaim sp))) := by
  rcases rt <;> rcases sp <;> rfl

/-- Shape of the top padding: the rounded base padding times the 9:16
multiplier. -/
theorem padTop_eq (w h : ℚ) (rt : RatioType) (sp : SpaceType) :
    (getFramePadding w h rt sp).padTop =
      padTopMultiplierPerClaim rt sp * jsRound (min w h * basePaddingPerClaim sp) := by
  rcases rt <;> rcases sp
  · exact (one_mul _).symm
  · exact (one_mul _).symm
  · exact (one_mul _).symm
  · exact (one_mul _).symm
  · exact (one_mul _).symm
  · exact (one_mul _).symm
  · exact show jsRound (min w h * (0.04 : ℚ)) * 2.5 * 1.8 =
      2.5 * 1.8 * jsRound (min w h * (0.04 : ℚ)) by ring
  · exact mul_comm _ _
  · exact mul_comm _ _

/-- The base padding fraction is non-negative. -/
theorem basePaddingPerClaim_nonneg (sp : SpaceType) : 0 ≤ basePaddingPerClaim sp := by
  rcases sp <;> norm_num [basePaddingPerClaim]

/-- The 9:16 top multiplier is non-negative. -/
theorem padTopMultiplierPerClaim_nonneg (rt : RatioType) (sp : SpaceType) :
    0 ≤ padTopMultiplierPerClaim rt sp := by
  rcases rt <;> rcases sp <;> norm_num [padTopMultiplierPerClaim]

/-- `Math.round` of the short side times a non-negative fraction. -/
theorem jsRound_shortside_nonneg (w h c : ℚ) (hw : 0 ≤ w) (hh : 0 ≤ h) (hc : 0 ≤ c) :
    0 ≤ jsRound (min w h * c) := jsRound_nonneg (mul_nonneg (le_min hw hh) hc)

/-- C2: `getFramePadding` computes exactly the algorithm the claim
describes: basePadding 0.04/0.08/0.15 by tier, minPadBottom 0.10 for
(5:7, S) and 0.17 otherwise, extraBottom = max(0, minPadBottom − base),
three equal rounded paddings plus an enlarged rounded bottom padding, and
the 2.5× (and further 1.8× for tier S, net 4.5×) top-padding multiplier
for 9:16. -/
theorem c2_padding_algorithm (w h : ℚ) (rt : RatioType) (sp : SpaceType) :
    getFramePadding w h rt sp = paddingPerClaim w h rt sp ∧
    (getFramePadding w h rt sp).padTop =
      padTopMultiplierPerClaim rt sp * jsRound (min w h * basePaddingPerClaim sp) := by
  constructor
  · rcases rt <;> rcases sp <;> rfl
  · exact padTop_eq w h rt sp

/-- C3: whenever the frame ratio is 9:16 (any tier) or the tier is L (any
ratio), the caption anchor is `imageDrawTop + imageDrawHeight + 0.02 *
canvasHeight` — the fixed distance is the uniform per-ratio constant 0.02
of the canvas height. -/
theorem c3_fixed_distance_regime (rt : RatioType) (sp : SpaceType)
    (canvasHeight padBottom imageDrawTop imageDrawHeight captionHeight : ℚ)
    (imageWidth imageHeight : Option ℚ)
    (hreg : rt = r916 ∨ sp = sL) :
    getCaptionYPosition rt sp canvasHeight padBottom imageDrawTop imageDrawHeight
      captionHeight imageWidth imageHeight =
      imageDrawTop + imageDrawHeight + 0.02 * canvasHeight := by
  rcases hreg with hr | hs
  · subst hr
    simp [getCaptionYPosition, is916, CAPTION_DISTANCE_FROM_IMAGE_BOTTOM_L]
  · subst hs
    rcases rt <;>
      simp [getCaptionYPosition, is916, isL, CAPTION_DISTANCE_FROM_IMAGE_BOTTOM_L]

/-- Witness for C3 at (9:16, M) with concrete geometry. -/
theorem c3_fixed_distance_regime_witness :
    getCaptionYPosition r916 sM 672 64 100 300 23 (some 3000) (some 4000) =
      100 + 300 + 0.02 * 672 :=
  c3_fixed_distance_regime r916 sM 672 64 100 300 23 (some 3000) (some 4000) (Or.inl rfl)

/-- C6 (amended): for non-negative canvas dimensions the four paddings are
non-negative, left = right, and left/right/bottom are integers; the top
padding is an integer whenever the ratio is not 9:16. -/
theorem c6_padding_postcondition (w h : ℚ) (rt : RatioType) (sp : SpaceType)
    (hw : 0 ≤ w) (hh : 0 ≤ h) : paddingPostconditionAmended w h rt sp := by
  have hbase : 0 ≤ basePaddingPerClaim sp := basePaddingPerClaim_nonneg sp
  have hround : 0 ≤ jsRound (min w h * basePaddingPerClaim sp) :=
    jsRound_shortside_nonneg w h _ hw hh hbase
  unfold paddingPostconditionAmended
  rw [padLeft_eq, padRight_eq, padBottom_eq, padTop_eq]
  refine ⟨rfl, mul_nonneg (padTopMultiplierPerClaim_nonneg rt sp) hround, hround, hround,
    jsRound_shortside_nonneg w h _ hw hh (add_nonneg hbase (le_max_left 0 _)),
    jsRound_int _, jsRound_int _, jsRound_int _, fun hne => ?_⟩
  have hmul : padTopMultiplierPerClaim rt sp = 1 := by
    rcases rt <;> rcases sp <;> first | rfl | exact (hne rfl).elim
  rw [hmul, one_mul]
  exact jsRound_int _

/-- Witness for C6 (amended) at the 9:16 preview canvas. -/
theorem c6_padding_postcondition_witness : paddingPostconditionAmended 378 672 r57 sS :=
  c6_padding_postcondition 378 672 r57 sS (by norm_num) (by norm_num)

/-- The acceptance gate is exactly the three 10%-tolerance band tests. -/
theorem supported_iff (w h : ℚ) :
    isSupportedAspectRatio w h = true ↔
      (|w / h - 3/4| < 0.1 ∨ |w / h - 2/3| < 0.1 ∨ |w / h - 4/5| < 0.1) := by
  by_cases h0 : h = 0
  · subst h0
    simp only [isSupportedAspectRatio, if_pos rfl, div_zero, abs_sub_lt_iff]
    norm_num
  · simp [isSupportedAspectRatio, h0, or_assoc]

/-- The styling classifier returns a non-`other` class exactly on the three
5%-tolerance bands. -/
theorem styled_iff (w h : ℚ) :
    getImageAspectRatioType w h ≠ AspectType.other ↔
      (|w / h - 3/4| < 0.05 ∨ |w / h - 2/3| < 0.05 ∨ |w / h - 4/5| < 0.05) := by
  by_cases h0 : h = 0
  · subst h0
    simp only [getImageAspectRatioType, if_pos rfl, div_zero, abs_sub_lt_iff, ne_eq,
      not_true_eq_false, false_iff]
    norm_num
  · simp only [getImageAspectRatioType, if_neg h0]
    split_ifs with h1 h2 h3
    · exact iff_of_true (by simp) (Or.inl h1)
    · exact iff_of_true (by simp) (Or.inr (Or.inl h2))
    · exact iff_of_true (by simp) (Or.inr (Or.inr h3))
    · exact iff_of_false (by simp) (by tauto)

/-- A 3000×4000 upload is accepted. -/
theorem sample34_supported : isSupportedAspectRatio 3000 4000 = true := by
  norm_num [isSupportedAspectRatio, abs_sub_lt_iff, abs_lt, le_abs]

/-- A 3000×4000 upload is styled as the 3:4 class. -/
theorem sample34_class : getImageAspectRatioType 3000 4000 = AspectType.a34 := by
  norm_num [getImageAspectRatioType, abs_sub_lt_iff, abs_lt, le_abs]

/-- A square upload is rejected. -/
theorem square_unsupported : isSupportedAspectRatio 1000 1000 = false := by
  norm_num [isSupportedAspectRatio, abs_sub_lt_iff, abs_lt, le_abs]

/-- A square upload is styled `other`. -/
theorem square_class : getImageAspectRatioType 1000 1000 = AspectType.other := by
  norm_num [getImageAspectRatioType, abs_sub_lt_iff, abs_lt, le_abs]

/-- C7: the acceptance check succeeds exactly within the 10% bands around
3/4, 2/3, 4/5; the styling classifier uses the tighter 5% bands; a
3000×4000 image is accepted and classified 3:4; a square image fails all
bands (rejected, styled `other`). -/
theorem c7_aspect_classifier :
    (∀ w h : ℚ, isSupportedAspectRatio w h = true ↔
      (|w / h - 3/4| < 0.1 ∨ |w / h - 2/3| < 0.1 ∨ |w / h - 4/5| < 0.1)) ∧
    (∀ w h : ℚ, getImageAspectRatioType w h ≠ AspectType.other ↔
      (|w / h - 3/4| < 0.05 ∨ |w / h - 2/3| < 0.05 ∨ |w / h - 4/5| < 0.05)) ∧
    getImageAspectRatioType 3000 4000 = AspectType.a34 ∧
    isSupportedAspectRatio 3000 4000 = true ∧
    isSupportedAspectRatio 1000 1000 = false ∧
    getImageAspectRatioType 1000 1000 = AspectType.other :=
  ⟨supported_iff, styled_iff, sample34_class, sample34_supported,
    square_unsupported, square_class⟩

/-- C8: when the aspect-ratio acceptance check fails, the upload handler
only surfaces the error popup: every other piece of state (image, colors,
EXIF, caption lines, manual fields) is left exactly as it was, so the
compositor never sees the rejected image. -/
theorem c8_rejected_upload (s : AppState) (imgW imgH : ℚ) (dominantColor : String)
    (exif : ExifData) (filmScan : Bool) (exifLines : String × String)
    (hrej : isSupportedAspectRatio imgW imgH = false) :
    handleImageLoad s imgW imgH dominantColor exif filmScan exifLines =
      { s with showErrorPopup := true } := by
  unfold handleImageLoad
  rw [hrej]
  simp

/-- Witness for C8: a square image against the initial state. -/
theorem c8_rejected_upload_witness :
    handleImageLoad initialState 1000 1000 "#e53e3e" sampleExif false ("", "") =
      { initialState with showErrorPopup := true } :=
  c8_rejected_upload initialState 1000 1000 "#e53e3e" sampleExif false ("", "")
    square_unsupported

/-- C10: an image with a zero dimension always fails the acceptance check
(its ratio is 0, `Infinity`, or `NaN`, outside every band), so the upload
handler leaves all state except the error popup untouched and the geometry
pipeline never runs on a degenerate source. -/
theorem c10_degenerate_rejected (w h : ℚ) (s : AppState) (dominantColor : String)
    (exif : ExifData) (filmScan : Bool) (exifLines : String × String)
    (hdeg : w = 0 ∨ h = 0) :
    isSupportedAspectRatio w h = false ∧
    handleImageLoad s w h dominantColor exif filmScan exifLines =
      { s with showErrorPopup := true } := by
  have hfalse : isSupportedAspectRatio w h = false := by
    rcases hdeg with h0 | h0
    · subst h0
      by_cases hh : h = 0
      · simp [isSupportedAspectRatio, hh]
      · simp only [isSupportedAspectRatio, if_neg hh, zero_div, abs_sub_lt_iff,
          Bool.or_eq_false_iff, decide_eq_false_iff_not]
        norm_num
    · subst h0
      simp [isSupportedAspectRatio]
  refine ⟨hfalse, ?_⟩
  unfold handleImageLoad
  rw [hfalse]
  simp

/-- Witness for C10: a 0×4000 image against the initial state. -/
theorem c10_degenerate_rejected_witness :
    isSupportedAspectRatio 0 4000 = false ∧
    handleImageLoad initialState 0 4000 "#e53e3e" sampleExif false ("", "") =
      { initialState with showErrorPopup := true } :=
  c10_degenerate_rejected 0 4000 initialState "#e53e3e" sampleExif false ("", "")
    (Or.inl rfl)

/-- Counterexample to C4 as stated: a 1:1 frame, tier S, reduced canvas
height 400, with an exactly-5:7 source image.  The code resolves the
offset from the 5:7-image table (value 0) and applies no small-screen
correction, anchoring at 350; the claim's unconditional correction would
subtract 0.021 of the canvas height. -/
theorem c4_counterexample :
    getCaptionYPosition r11 sS 400 80 30 270 20 (some 1000) (some 1400) ≠
      400 - 80/2 - 20/2 + captionOffsetPerClaimC4 r11 sS 1000 1400 400 * 400 := by
  have h1 : getCaptionYPosition r11 sS 400 80 30 270 20 (some 1000) (some 1400) = 350 := by
    norm_num [getCaptionYPosition, getCaptionYOffset, is916, isL, is11, is57, isS,
      truthy, CAPTION_Y_OFFSET_FRAC_57IMG, abs_sub_lt_iff]
  have h2 : captionOffsetPerClaimC4 r11 sS 1000 1400 400 = -0.021 := by
    norm_num [captionOffsetPerClaimC4, is11, is57, isS, CAPTION_Y_OFFSET_FRAC_57IMG,
      abs_sub_lt_iff]
  rw [h1, h2]
  norm_num

/-- C4 (amended): in the padding-centered regime (tier S or M, ratio not
9:16, a real image and a positive canvas height), the caption anchor is
`canvasHeight − padBottom/2 − captionHeight/2 + offset·canvasHeight`,
where the offset comes from the priority-ordered lookup and the
small-screen correction applies only in the base-table branch. -/
theorem c4_padding_centered_regime (rt : RatioType) (sp : SpaceType)
    (canvasHeight padBottom imageDrawTop imageDrawHeight captionHeight imgW imgH : ℚ)
    (hsp : sp = sS ∨ sp = sM) (hrt : rt ≠ r916)
    (himgW : imgW ≠ 0) (himgH : imgH ≠ 0) (hH : 0 < canvasHeight) :
    getCaptionYPosition rt sp canvasHeight padBottom imageDrawTop imageDrawHeight
      captionHeight (some imgW) (some imgH) =
      canvasHeight - padBottom / 2 - captionHeight / 2 +
        captionOffsetPerClaimC4Amended rt sp imgW imgH canvasHeight * canvasHeight := by
  have hH' : canvasHeight ≠ 0 := ne_of_gt hH
  rcases hsp with hs | hs <;> subst hs
  · rcases rt
    · simp only [getCaptionYPosition, getCaptionYOffset, captionOffsetPerClaimC4Amended]
      simp [is916, isL, is11, is57, isS, truthy, ne_eq, himgW, himgH, hH']
      all_goals (split_ifs <;> ring)
    · simp only [getCaptionYPosition, getCaptionYOffset, captionOffsetPerClaimC4Amended]
      simp [is916, isL, is11, is57, isS, truthy, ne_eq, himgW, himgH, hH']
      all_goals (split_ifs <;> ring)
    · exact absurd rfl hrt
  · rcases rt
    · simp only [getCaptionYPosition, getCaptionYOffset, captionOffsetPerClaimC4Amended]
      simp [is916, isL, is11, is57, isS, truthy, ne_eq, himgW, himgH, hH']
    · simp only [getCaptionYPosition, getCaptionYOffset, captionOffsetPerClaimC4Amended]
      simp [is916, isL, is11, is57, isS, truthy, ne_eq, himgW, himgH, hH']
    · exact absurd rfl hrt

/-- Witness for C4 (amended) at (5:7, M) with a 3:4 image. -/
theorem c4_padding_centered_regime_witness :
    getCaptionYPosition r57 sM 672 82 56 500 23 (some 3000) (some 4000) =
      672 - 82 / 2 - 23 / 2 +
        captionOffsetPerClaimC4Amended r57 sM 3000 4000 672 * 672 :=
  c4_padding_centered_regime r57 sM 672 82 56 500 23 3000 4000 (Or.inr rfl)
    (by decide) (by norm_num) (by norm_num) (by norm_num)

/-- The 3:4/4:5 tolerance bands match the styling classifier verdict:
outside the 3:4 band, the 2:3 band and the 4:5 band are disjoint, so the
classifier priority order does not disturb the 3:4-or-4:5 question. -/
theorem band_equiv (imgW imgH : ℚ) (hH : imgH ≠ 0) :
    (|imgW / imgH - 3/4| < 0.05 ∨ |imgW / imgH - 4/5| < 0.05) ↔
      (getImageAspectRatioType imgW imgH = AspectType.a34 ∨
        getImageAspectRatioType imgW imgH = AspectType.a45) := by
  by_cases h1 : |imgW / imgH - 3/4| < 0.05
  · have hc : getImageAspectRatioType imgW imgH = AspectType.a34 := by
      unfold getImageAspectRatioType
      rw [if_neg hH, if_pos h1]
    rw [hc]
    exact iff_of_true (Or.inl h1) (Or.inl rfl)
  by_cases h2 : |imgW / imgH - 2/3| < 0.05
  · have hc : getImageAspectRatioType imgW imgH = AspectType.a23 := by
      unfold getImageAspectRatioType
      rw [if_neg hH, if_neg h1, if_pos h2]
    rw [hc]
    refine iff_of_false ?_ ?_
    · rintro (hb | hb)
      · exact h1 hb
      · rw [abs_sub_lt_iff] at hb h2
        linarith [hb.2, h2.1]
    · rintro (hcls | hcls) <;> exact AspectType.noConfusion hcls
  by_cases h3 : |imgW / imgH - 4/5| < 0.05
  · have hc : getImageAspectRatioType imgW imgH = AspectType.a45 := by
      unfold getImageAspectRatioType
      rw [if_neg hH, if_neg h1, if_neg h2, if_pos h3]
    rw [hc]
    exact iff_of_true (Or.inr h3) (Or.inr rfl)
  · have hc : getImageAspectRatioType imgW imgH = AspectType.other := by
      unfold getImageAspectRatioType
      rw [if_neg hH, if_neg h1, if_neg h2, if_neg h3]
    rw [hc]
    refine iff_of_false ?_ ?_
    · rintro (hb | hb)
      · exact h1 hb
      · exact h3 hb
    · rintro (hcls | hcls) <;> exact AspectType.noConfusion hcls

/-- Contain-fit arithmetic: fitting an aspect ratio `a` into a positive
`dW × dH` box along the wider side keeps both target sides positive, no
larger than the box, and preserves the ratio. -/
theorem containFit (dW dH a : ℚ) (hdW : 0 < dW) (hdH : 0 < dH) (ha : 0 < a) :
    0 < (if a > dW / dH then dW else dH * a) ∧
    (if a > dW / dH then dW else dH * a) ≤ dW ∧
    0 < (if a > dW / dH then dW / a else dH) ∧
    (if a > dW / dH then dW / a else dH) ≤ dH ∧
    (if a > dW / dH then dW else dH * a) / (if a > dW / dH then dW / a else dH) = a := by
  split_ifs with hc
  · have hc2 : dW < a * dH := (div_lt_iff₀ hdH).mp hc
    refine ⟨hdW, le_refl _, div_pos hdW ha, ?_, ?_⟩
    · rw [div_le_iff₀ ha]
      linarith [hc2]
    · rw [div_div_eq_mul_div, mul_comm dW a, mul_div_assoc,
        div_self (ne_of_gt hdW), mul_one]
  · push_neg at hc
    have hc2 : a * dH ≤ dW := (le_div_iff₀ hdH).mp hc
    refine ⟨mul_pos hdH ha, ?_, hdH, le_refl _, ?_⟩
    · linarith [hc2]
    · rw [mul_comm dH a, mul_div_assoc, div_self (ne_of_gt hdH), mul_one]

/-- Distributing a shared conjunct over the band disjunction: the shape of
the placement condition versus the classifier-phrased condition. -/
theorem cond_equiv (A C b34 b45 x34 x45 : Prop)
    (hbe : (b34 ∨ b45) ↔ (x34 ∨ x45)) :
    (A ∨ (b34 ∧ C) ∨ (b45 ∧ C)) ↔ (A ∨ ((x34 ∨ x45) ∧ C)) := by
  constructor
  · rintro (hr | ⟨hb, hc⟩ | ⟨hb, hc⟩)
    · exact Or.inl hr
    · exact Or.inr ⟨hbe.mp (Or.inl hb), hc⟩
    · exact Or.inr ⟨hbe.mp (Or.inr hb), hc⟩
  · rintro (hr | ⟨hx, hc⟩)
    · exact Or.inl hr
    · rcases hbe.mpr hx with hb | hb
      · exact Or.inr (Or.inl ⟨hb, hc⟩)
      · exact Or.inr (Or.inr ⟨hb, hc⟩)

/-- C5 (amended): with a real image and a non-degenerate padded interior,
the export-path image rectangle satisfies the placement invariant
(containment in the padded interior, aspect preservation, horizontal
centering, and the vertical centering rule in terms of the source aspect
class); the preview placement computes the same rectangle except when
FrameRatio = 9:16 and SpacingTier = L, where the preview instead centers
the image vertically in the full canvas, ignoring the vertical padding. -/
theorem c5_image_placement (w h imgW imgH : ℚ) (rt : RatioType) (sp : SpaceType)
    (himgW : 0 < imgW) (himgH : 0 < imgH)
    (hdW : 0 < w - (getFramePadding w h rt sp).padLeft - (getFramePadding w h rt sp).padRight)
    (hdH : 0 < h - (getFramePadding w h rt sp).padTop - (getFramePadding w h rt sp).padBottom) :
    imagePlacementInvariant w h rt sp imgW imgH ∧
    (¬ (rt = r916 ∧ sp = sL) →
      previewImagePlacement w h rt sp imgW imgH = exportImagePlacement w h rt sp imgW imgH) ∧
    ((rt = r916 ∧ sp = sL) →
      (previewImagePlacement w h rt sp imgW imgH).top =
        (h - (previewImagePlacement w h rt sp imgW imgH).height) / 2) := by
  have ha : 0 < imgW / imgH := div_pos himgW himgH
  refine ⟨?_, ?_, ?_⟩
  · obtain ⟨htW0, htWle, htH0, htHle, hratio⟩ :=
      containFit
        (w - (getFramePadding w h rt sp).padLeft - (getFramePadding w h rt sp).padRight)
        (h - (getFramePadding w h rt sp).padTop - (getFramePadding w h rt sp).padBottom)
        (imgW / imgH) hdW hdH ha
    have hwidth : (exportImagePlacement w h rt sp imgW imgH).width =
        (if imgW / imgH >
            (w - (getFramePadding w h rt sp).padLeft - (getFramePadding w h rt sp).padRight) /
              (h - (getFramePadding w h rt sp).padTop - (getFramePadding w h rt sp).padBottom) then
          w - (getFramePadding w h rt sp).padLeft - (getFramePadding w h rt sp).padRight
        else
          (h - (getFramePadding w h rt sp).padTop - (getFramePadding w h rt sp).padBottom) *
            (imgW / imgH)) := rfl
    have hheight : (exportImagePlacement w h rt sp imgW imgH).height =
        (if imgW / imgH >
            (w - (getFramePadding w h rt sp).padLeft - (getFramePadding w h rt sp).padRight) /
              (h - (getFramePadding w h rt sp).padTop - (getFramePadding w h rt sp).padBottom) then
          (w - (getFramePadding w h rt sp).padLeft - (getFramePadding w h rt sp).padRight) /
            (imgW / imgH)
        else
          h - (getFramePadding w h rt sp).padTop - (getFramePadding w h rt sp).padBottom) := rfl
    have hleft : (exportImagePlacement w h rt sp imgW imgH).left =
        (getFramePadding w h rt sp).padLeft +
          ((w - (getFramePadding w h rt sp).padLeft - (getFramePadding w h rt sp).padRight) -
            (exportImagePlacement w h rt sp imgW imgH).width) / 2 := rfl
    have htop : (exportImagePlacement w h rt sp imgW imgH).top =
        (if is916 rt ∨ (|imgW / imgH - 3/4| < 0.05 ∧ is57 rt ∧ isL sp) ∨
            (|imgW / imgH - 4/5| < 0.05 ∧ is57 rt ∧ isL sp) then
          (getFramePadding w h rt sp).padTop +
            ((h - (getFramePadding w h rt sp).padTop - (getFramePadding w h rt sp).padBottom) -
              (exportImagePlacement w h rt sp imgW imgH).height) / 2
        else (getFramePadding w h rt sp).padTop) := rfl
    rw [hwidth] at hleft
    have hbe := band_equiv imgW imgH (ne_of_gt himgH)
    unfold imagePlacementInvariant
    refine ⟨?_, ?_, ?_, ?_, ?_, ?_, ?_, ?_, ?_⟩
    · rw [hleft]
      linarith [htWle]
    · rw [hleft, hwidth]
      linarith [htWle]
    · rw [htop, hheight]
      split_ifs at htHle ⊢ <;> linarith [htHle]
    · rw [htop, hheight]
      split_ifs at htHle ⊢ <;> linarith [htHle]
    · rw [hwidth]
      exact htW0
    · rw [hheight]
      exact htH0
    · rw [hwidth, hheight]
      exact hratio
    · rw [hleft, hwidth]
      ring
    · rw [htop]
      exact if_congr (cond_equiv _ _ _ _ _ _ hbe) rfl rfl
  · intro hne
    rcases rt <;> rcases sp <;>
      first
        | (simp only [previewImagePlacement, exportImagePlacement, is916, isL,
            Bool.false_eq_true, eq_self_iff_true, false_and, and_false, true_and,
            and_true, and_self, if_false, if_true, false_or, or_false, true_or,
            or_true, or_self]
           done)
        | exact absurd ⟨rfl, rfl⟩ hne
  · rintro ⟨h1, h2⟩
    subst h1
    subst h2
    simp only [previewImagePlacement, is916, isL, Bool.false_eq_true, eq_self_iff_true,
      true_and, and_true, and_self, if_false, if_true, true_or, zero_add]

/-- Counterexample to C5 as stated: at the 9:16 preview canvas with tier L
and a 2:3 source image (2000×3000), the preview places the image top at
138, above the top padding 142.5 — the rectangle does not lie within the
padded interior. -/
theorem c5_counterexample :
    (previewImagePlacement 378 672 r916 sL 2000 3000).top <
      (getFramePadding 378 672 r916 sL).padTop := by
  have hpad : (getFramePadding 378 672 r916 sL).padTop = 285/2 := by
    rw [padTop_eq]
    norm_num [padTopMultiplierPerClaim, basePaddingPerClaim, jsRound]
  have htop : (previewImagePlacement 378 672 r916 sL 2000 3000).top = 138 := by
    norm_num [previewImagePlacement, getFramePadding, minPadBottomTable, jsRound,
      is916, isL, is57, isS, isM, abs_sub_lt_iff, abs_lt]
  rw [hpad, htop]
  norm_num

/-- Witness for C5 (amended) at the 5:7 export canvas with a 3:4 image. -/
theorem c5_image_placement_witness :
    imagePlacementInvariant 1714 2400 r57 sM 3000 4000 ∧
    (¬ (r57 = r916 ∧ sM = sL) →
      previewImagePlacement 1714 2400 r57 sM 3000 4000 =
        exportImagePlacement 1714 2400 r57 sM 3000 4000) ∧
    ((r57 = r916 ∧ sM = sL) →
      (previewImagePlacement 1714 2400 r57 sM 3000 4000).top =
        (2400 - (previewImagePlacement 1714 2400 r57 sM 3000 4000).height) / 2) :=
  c5_image_placement 1714 2400 3000 4000 r57 sM (by norm_num) (by norm_num)
    (by rw [padLeft_eq, padRight_eq]
        norm_num [basePaddingPerClaim, jsRound])
    (by rw [padTop_eq, padBottom_eq]
        norm_num [padTopMultiplierPerClaim, basePaddingPerClaim, minPadBottomPerClaim,
          jsRound])

/-- Counterexample to C6 as stated: at the 9:16 preview canvas with tier S,
the computed top padding is 67.5, not an integer (round(378·0.04) = 15,
multiplied by 2.5 and 1.8). -/
theorem c6_counterexample :
    ¬ ∃ n : ℤ, (getFramePadding 378 672 r916 sS).padTop = (n : ℚ) := by
  have hval : (getFramePadding 378 672 r916 sS).padTop = 135/2 := by
    rw [padTop_eq]
    norm_num [padTopMultiplierPerClaim, basePaddingPerClaim, jsRound]
  rw [hval]
  rintro ⟨n, hn⟩
  have h2 : (135 : ℚ) = 2 * (n : ℚ) := by linarith
  have h3 : (135 : ℤ) = 2 * n := by exact_mod_cast h2
  omega

/-- Every fill-text command issued by `drawTextWithLetterSpacing` carries
the color the call was given. -/
theorem dtls_all_color (measure : String → String → ℚ) (font color : String) (alpha : ℚ) :
    ∀ (cs : List Char) (x y ls : ℚ),
      ((drawTextWithLetterSpacing measure font color alpha cs x y ls).all
        fun cmd => cmd.color == color) = true := by
  intro cs
  induction cs with
  | nil => intro x y ls; rfl
  | cons c cs ih =>
    intro x y ls
    simp [drawTextWithLetterSpacing, List.all_cons, ih]

/-- The YIQ contrast computation on the Snap pattern-2 orange: luminance
(255·299 + 153·587 + 0·114)/1000 ≈ 166 ≥ 128, so it would pick `'#222'`,
not the red that `drawCaption` actually uses. -/
theorem contrast_snap2 : getContrastColor SNAP_COLORS_pattern2 = "#222" := by
  unfold getContrastColor SNAP_COLORS_pattern2
  rw [if_neg (by decide), if_neg (by decide), if_neg (by decide), if_pos (by decide)]
  show (if ((255 * 299 + 153 * 587 + 0 * 114 : ℕ) : ℚ) / 1000 ≥ 128 then "#222"
    else "#fff") = "#222"
  rw [if_pos (by push_cast; norm_num)]

/-- C9: whenever the frame color is the Snap pattern-2 accent, every
fill-text command `drawCaption` issues — for any measurement function,
canvas geometry, caption text, ratio and spacing tier — has color
`'#E2211C'`; and this overrides the YIQ contrast computation, which on
that accent color would return `'#222'`. -/
theorem c9_snap_pattern2_colors (measure : String → String → ℚ)
    (width height padBottom imageDrawTop imageDrawHeight : ℚ)
    (captionLines : String × String) (sp : SpaceType) (rt : RatioType)
    (imageWidth imageHeight : Option ℚ) :
    ((drawCaption measure width height padBottom imageDrawTop imageDrawHeight
        captionLines SNAP_COLORS_pattern2 sp rt imageWidth imageHeight).all
      fun cmd => cmd.color == "#E2211C") = true ∧
    getContrastColor SNAP_COLORS_pattern2 = "#222" := by
  constructor
  · simp only [drawCaption, eq_self_iff_true, if_true]
    split_ifs <;>
      simp [List.all_append, dtls_all_color measure]
  · exact contrast_snap2

set_option maxHeartbeats 8000000 in
/-- C1 (amended): outside the (9:16, L) combination, the preview and the
export (Print) path place the image by the same function of the canvas
size, and for every representative source aspect class the dimensionless
geometry profile — the four paddings, the image rectangle and the caption
anchor, each divided by the corresponding canvas dimension — of the PC
preview render (480-based canvas) and of the export render (long side
2400) agree within 1/200 = 0.5 %. -/
theorem c1_scale_invariance (rt : RatioType) (sp : SpaceType)
    (hne : ¬ (rt = r916 ∧ sp = sL)) :
    (∀ w h imgW imgH : ℚ,
      previewImagePlacement w h rt sp imgW imgH =
        exportImagePlacement w h rt sp imgW imgH) ∧
    ∀ d ∈ sampleClassDims, scaleInvariantAt rt sp d (1/200) := by
  constructor
  · intro w h imgW imgH
    rcases rt <;> rcases sp <;>
      first
        | (simp only [previewImagePlacement, exportImagePlacement, is916, isL,
            Bool.false_eq_true, eq_self_iff_true, false_and, and_false, true_and,
            and_true, and_self, if_false, if_true, false_or, or_false, true_or,
            or_true, or_self]
           done)
        | exact absurd ⟨rfl, rfl⟩ hne
  · intro d hd
    simp only [sampleClassDims, List.mem_cons, List.not_mem_nil, or_false] at hd
    rcases rt <;> rcases sp <;>
      first
        | (rcases hd with rfl | rfl | rfl | rfl <;>
            (unfold scaleInvariantAt
             norm_num [geometryFracs, previewRenderGeometry, exportRenderGeometry,
               previewCanvasSize, exportCanvasSize, ratioPair, OUTPUT_LONG_SIDE,
               previewImagePlacement, exportImagePlacement, getFramePadding,
               minPadBottomTable, jsRound, captionAnchorY, captionTotalHeight,
               outputShortSide, CAPTION_STYLE_font1, CAPTION_STYLE_font2,
               CAPTION_STYLE_lineGap, getCaptionYPosition, getCaptionYOffset,
               CAPTION_Y_OFFSET_FRAC, CAPTION_Y_OFFSET_FRAC_57IMG,
               CAPTION_Y_OFFSET_FRAC_23IMG, CAPTION_Y_OFFSET_FRAC_45IMG,
               CAPTION_DISTANCE_FROM_IMAGE_BOTTOM_L, truthy,
               is11, is57, is916, isS, isM, isL,
               List.forall₂_cons, List.forall₂_nil_left_iff,
               abs_sub_le_iff, abs_lt, le_abs, abs_sub_lt_iff])
           done)
        | exact absurd ⟨rfl, rfl⟩ hne

set_option maxHeartbeats 1000000 in
/-- Counterexample to C1 as stated: at (9:16, L) the preview-only
zero-padding override shifts the relative image top and caption anchor by
about 0.06 of the canvas height against the export render for a 2:3
source image — far beyond the 0.5 % tolerance, so the geometry is not
scale-invariant there. -/
theorem c1_counterexample : ¬ scaleInvariantAt r916 sL (2000, 3000) (1/200) := by
  unfold scaleInvariantAt
  norm_num [geometryFracs, previewRenderGeometry, exportRenderGeometry,
    previewCanvasSize, exportCanvasSize, ratioPair, OUTPUT_LONG_SIDE,
    previewImagePlacement, exportImagePlacement, getFramePadding,
    minPadBottomTable, jsRound, captionAnchorY, captionTotalHeight,
    outputShortSide, CAPTION_STYLE_font1, CAPTION_STYLE_font2,
    CAPTION_STYLE_lineGap, getCaptionYPosition, getCaptionYOffset,
    CAPTION_Y_OFFSET_FRAC, CAPTION_Y_OFFSET_FRAC_57IMG,
    CAPTION_Y_OFFSET_FRAC_23IMG, CAPTION_Y_OFFSET_FRAC_45IMG,
    CAPTION_DISTANCE_FROM_IMAGE_BOTTOM_L, truthy,
    is11, is57, is916, isS, isM, isL,
    List.forall₂_cons, List.forall₂_nil_left_iff,
    abs_sub_le_iff, abs_lt, le_abs, abs_sub_lt_iff]

/-- Witness for C1 (amended) at (5:7, M) with a 3:4 source image. -/
theorem c1_scale_invariance_witness :
    ¬ (r57 = r916 ∧ sM = sL) ∧
      (previewImagePlacement 480 672 r57 sM 3000 4000 =
        exportImagePlacement 480 672 r57 sM 3000 4000) ∧
      scaleInvariantAt r57 sM (3000, 4000) (1/200) :=
  ⟨by decide,
   (c1_scale_invariance r57 sM (by decide)).1 480 672 3000 4000,
   (c1_scale_invariance r57 sM (by decide)).2 (3000, 4000) (List.mem_cons.mpr (Or.inl rfl))⟩

end Frames
